import Mathlib

/-!
Verification of the my_init process-supervision script (procszoo/scripts/my_init.py).

The reaper (waitpid_reap_other_children) is embedded over an explicit kernel
state: zombies is the list of terminated-but-unreaped children in the order a
wait-any call would deliver them, pending is the list of still-running children
together with the status each one will eventually produce.  The cache models
the module-level _terminated_child_processes dict as an association list.
Statuses are raw 16-bit wait statuses encoded as Nat.
-/

set_option maxHeartbeats 1000000

namespace MyInit

def ECHILD : Nat := 10
def ESRCH : Nat := 3
def SIGTERM : Nat := 15
def SIGKILL : Nat := 9
def KILL_PROCESS_TIMEOUT : Nat := 5
def KILL_ALL_PROCESSES_TIMEOUT : Nat := 5

/-- Association-list lookup, mirroring Python dict.get on a pid-keyed dict. -/
def lookupStatus (pid : Nat) : List (Nat × Nat) → Option Nat
  | [] => none
  | e :: es => if e.1 = pid then some e.2 else lookupStatus pid es

/-- Removal of the entry for a key, mirroring Python del d[pid]. -/
def removeKey (pid : Nat) : List (Nat × Nat) → List (Nat × Nat)
  | [] => []
  | e :: es => if e.1 = pid then es else e :: removeKey pid es

/-- Insertion or update of a key, mirroring Python d[pid] = status. -/
def setKey (pid s : Nat) : List (Nat × Nat) → List (Nat × Nat)
  | [] => [(pid, s)]
  | e :: es => if e.1 = pid then (pid, s) :: es else e :: setKey pid s es

def hasKey (pid : Nat) (l : List (Nat × Nat)) : Bool :=
  (lookupStatus pid l).isSome

/-- Python truthiness of an optional status: None and 0 are both falsy.
This is the test performed by the line if status: in
waitpid_reap_other_children. -/
def truthy : Option Nat → Bool
  | none => false
  | some s => s != 0

/-- The cache _terminated_child_processes: pid mapped to raw status. -/
abbrev Cache := List (Nat × Nat)

/-- Kernel view of the children of PID 1: zombies are terminated and not yet
reaped (in wait-any delivery order); pending are alive children paired with
the status each will report when it terminates (consumed by blocking waits). -/
structure Kern where
  zombies : List (Nat × Nat)
  pending : List (Nat × Nat)
deriving DecidableEq, Repr

def Kern.size (k : Kern) : Nat := k.zombies.length + k.pending.length

/-- Model of os.waitpid(pid, os.WNOHANG): a zombie child is collected and
removed, a live child reports (0, 0), anything else raises ECHILD. -/
def waitpidNohang (pid : Nat) (k : Kern) : Except Nat ((Nat × Nat) × Kern) :=
  match lookupStatus pid k.zombies with
  | some s => .ok ((pid, s), ⟨removeKey pid k.zombies, k.pending⟩)
  | none => if hasKey pid k.pending then .ok ((0, 0), k) else .error ECHILD

/-- Model of os.waitpid(-1, 0): deliver the first zombie; with no zombie,
block until the next pending child terminates and deliver it; with no
children at all raise ECHILD. -/
def waitpidAny (k : Kern) : Except Nat ((Nat × Nat) × Kern) :=
  match k.zombies with
  | e :: rest => .ok (e, ⟨rest, k.pending⟩)
  | [] =>
    match k.pending with
    | e :: rest => .ok (e, ⟨[], rest⟩)
    | [] => .error ECHILD

theorem lookupStatus_length_removeKey {pid s : Nat} {l : List (Nat × Nat)}
    (h : lookupStatus pid l = some s) : (removeKey pid l).length + 1 = l.length := by
  induction l with
  | nil => simp [lookupStatus] at h
  | cons e es ih =>
    by_cases he : e.1 = pid
    · simp [removeKey, he]
    · simp only [lookupStatus, he, if_false] at h
      simp [removeKey, he, ih h]

theorem waitpidNohang_size {pid tp s : Nat} {k k1 : Kern}
    (h : waitpidNohang pid k = .ok ((tp, s), k1)) :
    (tp = 0 ∧ k1 = k) ∨ k1.size < k.size := by
  unfold waitpidNohang at h
  cases hz : lookupStatus pid k.zombies with
  | some v =>
    rw [hz] at h
    injection h with h
    injection h with h1 h2
    subst h2
    right
    have := lookupStatus_length_removeKey hz
    simp only [Kern.size]
    omega
  | none =>
    rw [hz] at h
    by_cases hp : hasKey pid k.pending
    · simp only [hp, if_true] at h
      injection h with h
      injection h with h1 h2
      subst h2
      injection h1 with h3 h4
      exact Or.inl ⟨h3.symm, rfl⟩
    · simp [hp] at h

theorem waitpidAny_size {x : Nat × Nat} {k k2 : Kern}
    (h : waitpidAny k = .ok (x, k2)) : k2.size < k.size := by
  obtain ⟨zs, ps⟩ := k
  cases zs with
  | cons e rest =>
    injection h with h
    injection h with h1 h2
    subst h2
    simp [Kern.size]
  | nil =>
    cases ps with
    | nil => simp [waitpidAny] at h
    | cons e rest =>
      injection h with h
      injection h with h1 h2
      subst h2
      simp [Kern.size]

/-- The while loop of waitpid_reap_other_children (lines 146-164): poll the
target with WNOHANG, fall back to a blocking wait-any, cache any unrelated
pid that comes back, and treat ECHILD/ESRCH as the target being gone. -/
def reapLoop (pid : Nat) (cache : Cache) (k : Kern) :
    Except Nat (Option Nat × Cache × Kern) :=
  match hn : waitpidNohang pid k with
  | .error e => if e = ECHILD ∨ e = ESRCH then .ok (none, cache, k) else .error e
  | .ok ((tp, s), k1) =>
    if htp : tp = 0 then
      match ha : waitpidAny k1 with
      | .error e => if e = ECHILD ∨ e = ESRCH then .ok (none, cache, k1) else .error e
      | .ok ((tp2, s2), k2) =>
        if tp2 = pid then .ok (some s2, cache, k2)
        else reapLoop pid (setKey tp2 s2 cache) k2
    else
      if tp = pid then .ok (some s, cache, k1)
      else reapLoop pid (setKey tp s cache) k1
termination_by k.size
decreasing_by
  · rcases waitpidNohang_size hn with ⟨-, rfl⟩ | hlt
    · exact waitpidAny_size ha
    · exact Nat.lt_trans (waitpidAny_size ha) hlt
  · rcases waitpidNohang_size hn with ⟨h0, -⟩ | hlt
    · exact absurd h0 htp
    · exact hlt

/-- Embedding of waitpid_reap_other_children (lines 134-164).  The cache
lookup uses Python truthiness: a cached raw status of 0 is falsy and is
treated exactly as a missing entry. -/
def waitpid_reap_other_children (pid : Nat) (cache : Cache) (k : Kern) :
    Except Nat (Option Nat × Cache × Kern) :=
  if truthy (lookupStatus pid cache) then
    .ok (lookupStatus pid cache, removeKey pid cache, k)
  else
    reapLoop pid cache k

theorem lookupStatus_isSome_iff {p : Nat} {l : List (Nat × Nat)} :
    (lookupStatus p l).isSome = true ↔ p ∈ l.map Prod.fst := by
  induction l with
  | nil => simp [lookupStatus]
  | cons e es ih =>
    by_cases he : e.1 = p
    · simp [lookupStatus, he]
    · have hpe : ¬ p = e.1 := fun hq => he hq.symm
      simp [lookupStatus, he, ih, hpe]

theorem lookupStatus_removeKey_ne {p q : Nat} {l : List (Nat × Nat)} (h : q ≠ p) :
    lookupStatus q (removeKey p l) = lookupStatus q l := by
  induction l with
  | nil => rfl
  | cons e es ih =>
    by_cases he : e.1 = p
    · have hq : ¬ (e.1 = q) := by rw [he]; exact fun hpq => h hpq.symm
      have hpq : ¬ (p = q) := fun hx => h hx.symm
      simp [removeKey, he, lookupStatus, hq, hpq]
    · simp [removeKey, he, lookupStatus, ih]

theorem removeKey_sublist (p : Nat) (l : List (Nat × Nat)) :
    List.Sublist (removeKey p l) l := by
  induction l with
  | nil => exact List.Sublist.refl []
  | cons e es ih =>
    by_cases he : e.1 = p
    · simp only [removeKey, he, if_true]
      exact List.Sublist.cons e (List.Sublist.refl es)
    · simp only [removeKey, he, if_false]
      exact List.Sublist.cons₂ e ih

/-- When the target pid is already a zombie, a single WNOHANG poll collects
it: the reap returns its raw status unchanged (whatever its value, zero
included) and removes only that zombie from the kernel. -/
theorem reap_zombie_step {pid s : Nat} {cache : Cache} {k : Kern}
    (hpid : pid ≠ 0)
    (hz : lookupStatus pid k.zombies = some s)
    (hc : truthy (lookupStatus pid cache) = false) :
    waitpid_reap_other_children pid cache k
      = .ok (some s, cache, ⟨removeKey pid k.zombies, k.pending⟩) := by
  have hwn : waitpidNohang pid k
      = .ok ((pid, s), ⟨removeKey pid k.zombies, k.pending⟩) := by
    unfold waitpidNohang; rw [hz]
  unfold waitpid_reap_other_children
  rw [hc]
  simp only [Bool.false_eq_true, if_false]
  unfold reapLoop
  split
  · next e heq => rw [hwn] at heq; exact absurd heq (by simp)
  · next tp s2 k1 heq =>
    rw [hwn] at heq
    injection heq with heq
    injection heq with h1 h2
    injection h1 with h3 h4
    subst h3; subst h4; subst h2
    simp [hpid]

/-- When the pid is not a child at all (neither a zombie nor alive), the
WNOHANG poll raises ECHILD and the reap absorbs it, returning None with the
cache and kernel untouched. -/
theorem reap_no_child {pid : Nat} {cache : Cache} {k : Kern}
    (hz : lookupStatus pid k.zombies = none)
    (hp : hasKey pid k.pending = false)
    (hc : truthy (lookupStatus pid cache) = false) :
    waitpid_reap_other_children pid cache k = .ok (none, cache, k) := by
  have hwn : waitpidNohang pid k = .error ECHILD := by
    unfold waitpidNohang; rw [hz, hp]; simp
  unfold waitpid_reap_other_children
  rw [hc]
  simp only [Bool.false_eq_true, if_false]
  unfold reapLoop
  split
  · next e heq =>
    rw [hwn] at heq
    injection heq with heq
    subst heq
    simp
  · next tp s2 k1 heq => rw [hwn] at heq; exact absurd heq (by simp)

/-- A sequence of calls to waitpid_reap_other_children, one per requested
pid, threading the cache and the kernel; records the result of each call. -/
def reapSeq (pids : List Nat) (cache : Cache) (k : Kern) :
    List (Except Nat (Option Nat)) × Cache × Kern :=
  match pids with
  | [] => ([], cache, k)
  | p :: rest =>
    match waitpid_reap_other_children p cache k with
    | .ok (s, cache1, k1) =>
      let r := reapSeq rest cache1 k1
      (.ok s :: r.1, r.2)
    | .error e =>
      let r := reapSeq rest cache k
      (.error e :: r.1, r.2)

theorem reapSeq_all_terminated (order : List Nat) :
    ∀ (zs ps : List (Nat × Nat)),
      (∀ e ∈ zs, e.1 ≠ 0) → (zs.map Prod.fst).Nodup → order.Nodup →
      (∀ p ∈ order, p ∈ zs.map Prod.fst) →
      (reapSeq order [] ⟨zs, ps⟩).1 = order.map (fun p => .ok (lookupStatus p zs)) := by
  induction order with
  | nil => intro zs ps _ _ _ _; rfl
  | cons p rest ih =>
    intro zs ps hnz hnd hond hmem
    have hpmem : p ∈ zs.map Prod.fst := hmem p (List.mem_cons_self p rest)
    obtain ⟨s, hs⟩ := Option.isSome_iff_exists.mp (lookupStatus_isSome_iff.mpr hpmem)
    have hp0 : p ≠ 0 := by
      obtain ⟨e, he, hfst⟩ := List.mem_map.mp hpmem
      exact hfst ▸ hnz e he
    have hstep := @reap_zombie_step p s [] ⟨zs, ps⟩ hp0 hs rfl
    have hsub := removeKey_sublist p zs
    have hrest := ih (removeKey p zs) ps
      (fun e he => hnz e (hsub.subset he))
      (hnd.sublist (hsub.map Prod.fst))
      (List.nodup_cons.mp hond).2
      (by
        intro q hq
        have hqp : q ≠ p := fun hqp => (List.nodup_cons.mp hond).1 (hqp ▸ hq)
        apply lookupStatus_isSome_iff.mp
        rw [lookupStatus_removeKey_ne hqp]
        exact lookupStatus_isSome_iff.mpr (hmem q (List.mem_cons_of_mem p hq)))
    unfold reapSeq
    rw [hstep]
    simp only [List.map_cons, hs]
    rw [hrest]
    congr 1
    apply List.map_congr_left
    intro q hq
    have hqp : q ≠ p := fun hqp => (List.nodup_cons.mp hond).1 (hqp ▸ hq)
    rw [lookupStatus_removeKey_ne hqp]

/-- C1 (confirmed): reap exactly-once delivery.  For every set of N already
terminated children (distinct nonzero pids, arbitrary raw statuses, zero
included) and every request order that asks once for a target pid and then
once for each of the other N-1 pids, every call of
waitpid_reap_other_children returns exactly the record of the requested pid:
no record is duplicated, none is lost. -/
theorem reap_exactly_once (zs ps : List (Nat × Nat)) (target : Nat) (others : List Nat)
    (hnz : ∀ e ∈ zs, e.1 ≠ 0)
    (hnd : (zs.map Prod.fst).Nodup)
    (hperm : List.Perm (target :: others) (zs.map Prod.fst)) :
    (reapSeq (target :: others) [] ⟨zs, ps⟩).1
      = (target :: others).map (fun p => .ok (lookupStatus p zs)) :=
  reapSeq_all_terminated (target :: others) zs ps hnz hnd
    (hperm.nodup_iff.mpr hnd) (fun p hp => hperm.subset hp)

theorem reap_exactly_once_witness :
    ((∀ e ∈ [(3, 0), (5, 2560), (8, 9)], Prod.fst e ≠ 0)
      ∧ (([(3, 0), (5, 2560), (8, 9)] : List (Nat × Nat)).map Prod.fst).Nodup
      ∧ List.Perm [5, 3, 8] (([(3, 0), (5, 2560), (8, 9)] : List (Nat × Nat)).map Prod.fst))
    ∧ (reapSeq [5, 3, 8] [] ⟨[(3, 0), (5, 2560), (8, 9)], []⟩).1
        = [.ok (some 2560), .ok (some 0), .ok (some 9)] :=
  ⟨⟨by decide, by decide, by decide⟩,
    (reap_exactly_once [(3, 0), (5, 2560), (8, 9)] [] 5 [3, 8]
      (by decide) (by decide) (by decide)).trans (by rfl)⟩

/-- C2 (code_bug): the cache-hit step of the reap uses Python truthiness
(if status:) rather than a presence test.  A cached raw status of 0 (normal
exit with code 0) is falsy: the entry is NOT removed and NOT returned; the
code falls through to an OS wait, receives ECHILD because the child was
already collected, and returns None, losing the record.  A cached nonzero
status is removed and returned as the spec describes. -/
theorem cache_hit_zero_status_lost :
    waitpid_reap_other_children 7 [(7, 0)] ⟨[], []⟩ = .ok (none, [(7, 0)], ⟨[], []⟩)
    ∧ waitpid_reap_other_children 7 [(7, 256)] ⟨[], []⟩ = .ok (some 256, [], ⟨[], []⟩) :=
  ⟨reap_no_child rfl rfl rfl, rfl⟩

/-!
Orchestration layer.  Python exceptions become an explicit sum type; the
one-shot alarm timer and the log of externally visible actions become an
explicit state record threaded through every function.  The outcome of each
blocking reap (which depends on what the OS and the signal gateway do while
the call is suspended) is an oracle parameter: the call either returns an
optional status or is interrupted by KeyboardInterrupt, AlarmException, or a
re-raised OSError.  Traces are kept in reverse chronological order: the most
recent action is at the head.
-/

/-- Python exceptions relevant to my_init, plus SystemExit as raised by
sys.exit. -/
inductive PyExc where
  | kb
  | alarmExc
  | osErr (errno : Nat)
  | sysExit (code : Option Nat)
  | nameError
  | attrError
deriving DecidableEq, Repr

/-- Possible outcomes of one blocking call to waitpid_reap_other_children
(or of the drain loop of kill_all_processes). -/
inductive ReapOutcome where
  | ret (s : Option Nat)
  | raiseKB
  | raiseAlarm
  | raiseOS (errno : Nat)
deriving DecidableEq, Repr

def ReapOutcome.toExcept : ReapOutcome → Except PyExc (Option Nat)
  | .ret s => .ok s
  | .raiseKB => .error .kb
  | .raiseAlarm => .error .alarmExc
  | .raiseOS n => .error (.osErr n)

/-- Externally visible actions, recorded most recent first. -/
inductive Act where
  | killSig (pid : Int) (signo : Nat)
  | spawnProc (name : String)
  | waitFor (pid : Nat)
  | drainWait
  | svDown
  | svWait
  | stopEnter (name : String)
  | installHandlers
  | errLog
  | warnLog
  | killAllEnter
deriving DecidableEq, Repr

/-- Process-wide mutable state: the armed alarm (0 means disarmed, matching
signal.alarm semantics) and the action log. -/
structure St where
  alarm : Nat
  trace : List Act
deriving DecidableEq, Repr

def St.emit (st : St) (a : Act) : St := { st with trace := a :: st.trace }

def sigAlarm (t : Nat) (st : St) : St := { st with alarm := t }

def st0 : St := ⟨0, []⟩

/-- Python try/finally: the finalizer always runs; an exception raised by
the finalizer replaces whatever the body produced. -/
def pyTryFinally {α : Type} (body : St → Except PyExc α × St)
    (fin : St → Except PyExc Unit × St) (st : St) : Except PyExc α × St :=
  let r1 := body st
  let r2 := fin r1.2
  match r2.1 with
  | .ok () => (r1.1, r2.2)
  | .error e => (.error e, r2.2)

/-- A blocking waitpid_reap_other_children call at a given pid, with its
outcome supplied by the oracle. -/
def reapAt (pid : Nat) (o : ReapOutcome) (st : St) : Except PyExc (Option Nat) × St :=
  (o.toExcept, st.emit (.waitFor pid))

/-- Oracle for one stop_child_process call: the outcome of the first reap
(under the armed deadline) and of the second reap after a SIGKILL
escalation. -/
structure StopO where
  reap1 : ReapOutcome
  reap2 : ReapOutcome
deriving DecidableEq, Repr

/-- Embedding of stop_child_process (lines 167-190): graceful SIGTERM
(delivery failure ignored), arm the alarm, reap under it; on AlarmException
escalate with SIGKILL and reap again; OSError from either reap is swallowed;
the finally always disarms the alarm. -/
def stop_child_process (name : String) (pid : Nat) (o : StopO) (st : St) :
    Except PyExc Unit × St :=
  let st := st.emit (.stopEnter name)
  let st := st.emit (.killSig pid SIGTERM)
  let st := sigAlarm KILL_PROCESS_TIMEOUT st
  pyTryFinally
    (fun st =>
      match reapAt pid o.reap1 st with
      | (.ok _, st) => (.ok (), st)
      | (.error (.osErr _), st) => (.ok (), st)
      | (.error .alarmExc, st) =>
        let st := st.emit .warnLog
        let st := st.emit (.killSig pid SIGKILL)
        (match reapAt pid o.reap2 st with
         | (.ok _, st) => (.ok (), st)
         | (.error (.osErr _), st) => (.ok (), st)
         | (.error e, st) => (.error e, st))
      | (.error e, st) => (.error e, st))
    (fun st => (.ok (), sigAlarm 0 st))
    st

/-- Embedding of kill_all_processes (lines 217-242): broadcast SIGTERM to
the process group, arm the alarm, drain children until ECHILD; on
AlarmException broadcast SIGKILL; a non-ECHILD OSError from the drain loop
propagates; the finally always disarms the alarm. -/
def kill_all_processes (time_limit : Nat) (o : ReapOutcome) (st : St) :
    Except PyExc Unit × St :=
  let st := st.emit .killAllEnter
  let st := st.emit (.killSig (-1) SIGTERM)
  let st := sigAlarm time_limit st
  pyTryFinally
    (fun st =>
      let st := st.emit .drainWait
      match o with
      | .ret _ => (.ok (), st)
      | .raiseOS n => (.error (.osErr n), st)
      | .raiseAlarm => (.ok (), (st.emit .warnLog).emit (.killSig (-1) SIGKILL))
      | .raiseKB => (.error .kb, st))
    (fun st => (.ok (), sigAlarm 0 st))
    st

/-- Embedding of wait_for_runit_or_interrupt (lines 268-273): a
KeyboardInterrupt raised during the reap is caught and reported as
(False, None); any other exception propagates. -/
def wait_for_runit_or_interrupt (pid : Nat) (o : ReapOutcome) (st : St) :
    Except PyExc (Bool × Option Nat) × St :=
  match reapAt pid o st with
  | (.ok s, st) => (.ok (true, s), st)
  | (.error .kb, st) => (.ok (false, none), st)
  | (.error e, st) => (.error e, st)

/-- os.WEXITSTATUS on a raw 16-bit wait status: the high byte. -/
def WEXITSTATUS (s : Nat) : Nat := s / 256 % 256

/-- Oracle for one run of init: the outcome of the startup phase (envvar
import, insecure key, startup files), the pids the two spawns return, the
outcome of the workload reap, and the oracles of the two possible
stop_child_process calls. -/
structure InitO where
  startup : Except PyExc Unit
  runitPid : Nat
  mainPid : Nat
  workload : ReapOutcome
  stopMain : StopO
  stopRunit : StopO
deriving Repr

/-- The body of the try at lines 320-349.  It always raises (sys.exit or a
propagated exception); the Bool records the runit_exited flag the finally
block reads. -/
def initBody (skip_runit : Bool) (main_command : List String) (o : InitO) (st : St) :
    PyExc × St × Bool :=
  if main_command.isEmpty then
    if skip_runit then (.nameError, st, false)
    else
      match wait_for_runit_or_interrupt o.runitPid o.workload st with
      | (.ok (runit_exited, exit_code), st) =>
        if runit_exited then
          (.sysExit (some (match exit_code with | none => 1 | some c => WEXITSTATUS c)),
            st, true)
        else (.sysExit none, st, false)
      | (.error e, st) => (e, st, false)
  else
    let st := st.emit (.spawnProc (main_command.headD ""))
    match reapAt o.mainPid o.workload st with
    | (.ok s, st) =>
      (.sysExit (some (match s with | none => 1 | some c => WEXITSTATUS c)), st, false)
    | (.error .kb, st) =>
      (match stop_child_process (main_command.headD "") o.mainPid o.stopMain st with
       | (.ok (), st) => (.kb, st, false)
       | (.error e2, st) => (e2, st, false))
    | (.error e, st) =>
      let st := st.emit .warnLog
      (match stop_child_process (main_command.headD "") o.mainPid o.stopMain st with
       | (.ok (), st) => (e, st, false)
       | (.error e2, st) => (e2, st, false))

/-- Embedding of init (lines 305-355).  The startup phase runs before the
try; if runit was started, the finally runs shutdown_runit_services, then
stop_child_process on the daemon unless it already exited, then
wait_for_runit_services.  An exception from that stop replaces the in-flight
exception and skips the service wait. -/
def init (skip_runit : Bool) (main_command : List String) (o : InitO) (st : St) :
    PyExc × St :=
  match o.startup with
  | .error e => (e, st)
  | .ok () =>
    let st := if skip_runit then st else st.emit (.spawnProc "runsvdir")
    let r := initBody skip_runit main_command o st
    if skip_runit then (r.1, r.2.1)
    else
      let st1 := r.2.1.emit .svDown
      if r.2.2 then (r.1, st1.emit .svWait)
      else
        match stop_child_process "runit daemon" o.runitPid o.stopRunit st1 with
        | (.ok (), st2) => (r.1, st2.emit .svWait)
        | (.error e2, st2) => (e2, st2)

structure MainO where
  initO : InitO
  killAll : ReapOutcome
deriving Repr

/-- Embedding of main (lines 389-421), with parsed options given directly:
the skip-runit/empty-command guard exits 1 before anything else; signal
handlers are installed; init runs under try/except KeyboardInterrupt (which
exits 2) and a finally that, when configured, sweeps the whole process
group. -/
def mainRun (main_command : List String) (skip_runit kill_all_on_exit : Bool)
    (o : MainO) (st : St) : PyExc × St :=
  if skip_runit && main_command.isEmpty then
    (.sysExit (some 1), st.emit .errLog)
  else
    let st := st.emit .installHandlers
    let r := init skip_runit main_command o.initO st
    let r2 : PyExc × St :=
      match r.1 with
      | .kb => (.sysExit (some 2), r.2.emit .warnLog)
      | e => (e, r.2)
    if kill_all_on_exit then
      match kill_all_processes KILL_ALL_PROCESSES_TIMEOUT o.killAll r2.2 with
      | (.ok (), st3) => (r2.1, st3)
      | (.error e, st3) => (e, st3)
    else r2

/-- The OS-visible exit status of the interpreter given the exception that
reached top level: SystemExit carries its code (None meaning 0); any other
uncaught exception exits with status 1. -/
def processExitCode : PyExc → Nat
  | .sysExit none => 0
  | .sysExit (some n) => n % 256
  | _ => 1

def mainExit (main_command : List String) (skip_runit kill_all_on_exit : Bool)
    (o : MainO) : Nat :=
  processExitCode (mainRun main_command skip_runit kill_all_on_exit o st0).1

def mainTrace (main_command : List String) (skip_runit kill_all_on_exit : Bool)
    (o : MainO) : List Act :=
  (mainRun main_command skip_runit kill_all_on_exit o st0).2.trace

/-- The exception, if any, that escapes a stop_child_process call with the
given oracle: OSError is always swallowed, AlarmException from the first
reap triggers the escalation, and only an interruption of the escalated
reap (or a KeyboardInterrupt) escapes. -/
def stopEscapes (o : StopO) : Option PyExc :=
  match o.reap1 with
  | .ret _ => none
  | .raiseOS _ => none
  | .raiseKB => some .kb
  | .raiseAlarm =>
    match o.reap2 with
    | .ret _ => none
    | .raiseOS _ => none
    | .raiseKB => some .kb
    | .raiseAlarm => some .alarmExc

/-- The exception, if any, that escapes kill_all_processes. -/
def killAllEscapes : ReapOutcome → Option PyExc
  | .ret _ => none
  | .raiseAlarm => none
  | .raiseOS n => some (.osErr n)
  | .raiseKB => some .kb

/-- The Python os module has no attribute join; line 248 evaluates os.join,
which raises AttributeError (os.path.join was presumably intended). -/
def os_join : Option (String → String → String) := none

/-- One entry of the startup directory listing: file name, whether it is an
executable regular file, and the exit status it would report when run. -/
structure StartupFile where
  name : String
  isExe : Bool
  runStatus : Option Nat
deriving DecidableEq, Repr

/-- Embedding of run_command_killable (lines 193-208) for a command whose
reap completes with the given status: any status other than 0 (an unknown
status included) logs an error and raises SystemExit(1). -/
def run_command_killable (name : String) (pid : Nat) (status : Option Nat) (st : St) :
    Except PyExc Unit × St :=
  let st := st.emit (.spawnProc name)
  let st := st.emit (.waitFor pid)
  match status with
  | some 0 => (.ok (), st)
  | _ => (.error (.sysExit (some 1)), st.emit .errLog)

/-- Embedding of run_startup_files (lines 245-256) over the sorted listing
of the startup directory.  Every iteration evaluates os.join first, so any
non-empty listing raises AttributeError before anything is executed; the
continuation that was presumably intended is modelled for the case the
attribute existed.  With run_etc_local left at its default False, an empty
listing does nothing. -/
def run_startup_files (files : List StartupFile) (st : St) : Except PyExc Unit × St :=
  match files with
  | [] => (.ok (), st)
  | f :: rest =>
    match os_join with
    | none => (.error .attrError, st)
    | some _ =>
      if f.isExe then
        match run_command_killable f.name 0 f.runStatus st with
        | (.ok (), st) => run_startup_files rest st
        | (.error e, st) => (.error e, st)
      else run_startup_files rest st

/-- Signal dispositions my_init ever installs for SIGTERM, SIGINT and
SIGALRM. -/
inductive HAction where
  | raiseKI
  | raiseAlarmH
  | ignoreSig
deriving DecidableEq, Repr

inductive Sig where
  | sigterm
  | sigint
  | sigalrm
deriving DecidableEq, Repr

structure Handlers where
  term : HAction
  intr : HAction
  alrm : HAction
deriving DecidableEq, Repr

/-- The handler table after _settle_signals (lines 381-386). -/
def settle_signals : Handlers := ⟨.raiseKI, .raiseKI, .raiseAlarmH⟩

def handlerFor : Sig → Handlers → HAction
  | .sigterm, h => h.term
  | .sigint, h => h.intr
  | .sigalrm, h => h.alrm

/-- Embedding of ignore_signals_and_raise_keyboard_interrupt (lines 44-47):
both the SIGTERM and the SIGINT disposition become ignore first, then
KeyboardInterrupt is raised. -/
def ignore_signals_and_raise_keyboard_interrupt (h : Handlers) : Handlers × PyExc :=
  ({ h with term := .ignoreSig, intr := .ignoreSig }, .kb)

/-- Delivery of one signal under the current handler table: the new table
and the exception the handler raises, if any. -/
def deliver (s : Sig) (h : Handlers) : Handlers × Option PyExc :=
  match handlerFor s h with
  | .raiseKI =>
    let r := ignore_signals_and_raise_keyboard_interrupt h
    (r.1, some r.2)
  | .raiseAlarmH => (h, some .alarmExc)
  | .ignoreSig => (h, none)

def deliverAll (sigs : List Sig) (h : Handlers) : Handlers × List (Option PyExc) :=
  match sigs with
  | [] => (h, [])
  | s :: rest =>
    let r1 := deliver s h
    let r2 := deliverAll rest r1.1
    (r2.1, r1.2 :: r2.2)

def ReapOutcome.isRet : ReapOutcome → Bool
  | .ret _ => true
  | _ => false

/-- The action-log suffix a stop_child_process call appends (most recent
first). -/
def stopFinalTrace (name : String) (pid : Nat) (o : StopO) : List Act :=
  match o.reap1 with
  | .raiseAlarm =>
    [.waitFor pid, .killSig pid SIGKILL, .warnLog, .waitFor pid,
     .killSig pid SIGTERM, .stopEnter name]
  | _ => [.waitFor pid, .killSig pid SIGTERM, .stopEnter name]

theorem stop_child_process_eq (name : String) (pid : Nat) (o : StopO) (st : St) :
    stop_child_process name pid o st
      = ((match stopEscapes o with | none => .ok () | some e => .error e),
         ⟨0, stopFinalTrace name pid o ++ st.trace⟩) := by
  obtain ⟨r1, r2⟩ := o
  cases r1 <;> cases r2 <;> rfl

/-- The action-log suffix a kill_all_processes call appends (most recent
first). -/
def killAllFinalTrace (o : ReapOutcome) : List Act :=
  match o with
  | .raiseAlarm => [.killSig (-1) SIGKILL, .warnLog, .drainWait, .killSig (-1) SIGTERM, .killAllEnter]
  | _ => [.drainWait, .killSig (-1) SIGTERM, .killAllEnter]

theorem kill_all_processes_eq (t : Nat) (o : ReapOutcome) (st : St) :
    kill_all_processes t o st
      = ((match killAllEscapes o with | none => .ok () | some e => .error e),
         ⟨0, killAllFinalTrace o ++ st.trace⟩) := by
  cases o <;> rfl

/-- C6 (confirmed): deadline hygiene.  Whatever the outcome of the reaps --
normal return, OSError, AlarmException escalation, even an exception
unwinding out of the call -- both stop_child_process and kill_all_processes
leave the alarm disarmed, whatever it was before. -/
theorem alarm_always_disarmed (name : String) (pid : Nat) (o : StopO)
    (t : Nat) (o2 : ReapOutcome) (st st2 : St) :
    ((stop_child_process name pid o st).2).alarm = 0
    ∧ ((kill_all_processes t o2 st2).2).alarm = 0 := by
  obtain ⟨r1, r2⟩ := o
  constructor
  · cases r1 <;> cases r2 <;> rfl
  · cases o2 <;> rfl

/-- C7 (confirmed): idempotent termination.  For a pid that is fully gone
(not cached, not a zombie, not alive), the reap sees ECHILD and returns
None with state untouched, and stop_child_process returns normally after
just the SIGTERM attempt: no escalation, no error, alarm disarmed. -/
theorem stop_already_reaped (pid : Nat) (cache : Cache) (k : Kern)
    (hc : lookupStatus pid cache = none)
    (hz : lookupStatus pid k.zombies = none)
    (hp : hasKey pid k.pending = false) :
    waitpid_reap_other_children pid cache k = .ok (none, cache, k)
    ∧ ∀ (name : String) (r2 : ReapOutcome) (st : St),
        stop_child_process name pid ⟨.ret none, r2⟩ st
          = (.ok (), ⟨0, .waitFor pid :: .killSig pid SIGTERM :: .stopEnter name :: st.trace⟩) := by
  constructor
  · exact reap_no_child hz hp (by rw [hc]; rfl)
  · intro name r2 st; rfl

theorem stop_already_reaped_witness :
    (lookupStatus 5 [(3, 1)] = none
      ∧ lookupStatus 5 [(4, 0)] = none
      ∧ hasKey 5 [(9, 2)] = false)
    ∧ waitpid_reap_other_children 5 [(3, 1)] ⟨[(4, 0)], [(9, 2)]⟩
        = .ok (none, [(3, 1)], ⟨[(4, 0)], [(9, 2)]⟩)
    ∧ stop_child_process "nginx" 5 ⟨.ret none, .ret none⟩ st0
        = (.ok (), ⟨0, [.waitFor 5, .killSig 5 SIGTERM, .stopEnter "nginx"]⟩) :=
  ⟨⟨rfl, rfl, rfl⟩,
    (stop_already_reaped 5 [(3, 1)] ⟨[(4, 0)], [(9, 2)]⟩ rfl rfl rfl).1,
    (stop_already_reaped 5 [(3, 1)] ⟨[(4, 0)], [(9, 2)]⟩ rfl rfl rfl).2 "nginx" (.ret none) st0⟩

theorem deliverAll_ignored (sigs : List Sig)
    (h : ∀ s ∈ sigs, s = Sig.sigterm ∨ s = Sig.sigint) :
    deliverAll sigs ⟨.ignoreSig, .ignoreSig, .raiseAlarmH⟩
      = (⟨.ignoreSig, .ignoreSig, .raiseAlarmH⟩, sigs.map (fun _ => none)) := by
  induction sigs with
  | nil => rfl
  | cons s rest ih =>
    have hr := ih (fun q hq => h q (List.mem_cons_of_mem s hq))
    rcases h s (List.mem_cons_self s rest) with hs | hs <;> subst hs <;>
      simp [deliverAll, deliver, handlerFor, hr]

/-- C8 (confirmed): single-shot cancellation.  After _settle_signals, the
first delivered SIGTERM or SIGINT replaces both dispositions with ignore
and raises KeyboardInterrupt; every later delivery of either signal is
ignored (no exception, handler table unchanged). -/
theorem first_signal_single_shot (s1 : Sig) (later : List Sig)
    (h1 : s1 = Sig.sigterm ∨ s1 = Sig.sigint)
    (h2 : ∀ s ∈ later, s = Sig.sigterm ∨ s = Sig.sigint) :
    deliver s1 settle_signals = (⟨.ignoreSig, .ignoreSig, .raiseAlarmH⟩, some .kb)
    ∧ deliverAll later (deliver s1 settle_signals).1
        = ((deliver s1 settle_signals).1, later.map (fun _ => none)) := by
  have hd : deliver s1 settle_signals
      = (⟨.ignoreSig, .ignoreSig, .raiseAlarmH⟩, some .kb) := by
    rcases h1 with h | h <;> subst h <;> rfl
  refine ⟨hd, ?_⟩
  rw [hd]
  exact deliverAll_ignored later h2

theorem first_signal_single_shot_witness :
    ((Sig.sigterm = Sig.sigterm ∨ Sig.sigterm = Sig.sigint)
      ∧ (∀ s ∈ [Sig.sigint, Sig.sigterm], s = Sig.sigterm ∨ s = Sig.sigint))
    ∧ deliver .sigterm settle_signals = (⟨.ignoreSig, .ignoreSig, .raiseAlarmH⟩, some .kb)
    ∧ deliverAll [Sig.sigint, Sig.sigterm] (deliver .sigterm settle_signals).1
        = ((deliver .sigterm settle_signals).1, [none, none]) :=
  ⟨⟨by decide, by decide⟩,
    (first_signal_single_shot .sigterm [.sigint, .sigterm] (by decide) (by decide)).1,
    (first_signal_single_shot .sigterm [.sigint, .sigterm] (by decide) (by decide)).2⟩

/-- C10 (confirmed): with skip_runit set and no main command, main logs an
error and raises SystemExit(1) immediately: the only recorded action is the
error log -- no handler installation, no startup, no spawn, no
kill-everything sweep -- and the process exit status is 1. -/
theorem skip_runit_requires_command (kill_all_on_exit : Bool) (o : MainO) (st : St) :
    mainRun [] true kill_all_on_exit o st = (.sysExit (some 1), st.emit .errLog)
    ∧ mainExit [] true kill_all_on_exit o = 1 := by
  constructor <;> rfl

theorem stopFinalTrace_count_svDown (name : String) (pid : Nat) (o : StopO) :
    (stopFinalTrace name pid o).count .svDown = 0 := by
  cases h : o.reap1 <;> simp [stopFinalTrace, h, List.count_cons]

theorem stopFinalTrace_count_svWait (name : String) (pid : Nat) (o : StopO) :
    (stopFinalTrace name pid o).count .svWait = 0 := by
  cases h : o.reap1 <;> simp [stopFinalTrace, h, List.count_cons]

theorem stopFinalTrace_count_spawn (name q : String) (pid : Nat) (o : StopO) :
    (stopFinalTrace name pid o).count (.spawnProc q) = 0 := by
  cases h : o.reap1 <;> simp [stopFinalTrace, h, List.count_cons]

theorem stopFinalTrace_count_stopEnter (name q : String) (pid : Nat) (o : StopO) :
    (stopFinalTrace name pid o).count (.stopEnter q) = if q = name then 1 else 0 := by
  by_cases hq : q = name <;>
    cases h : o.reap1 <;> simp [stopFinalTrace, h, List.count_cons, hq]

theorem killAllFinalTrace_count_svDown (o : ReapOutcome) :
    (killAllFinalTrace o).count .svDown = 0 := by
  cases o <;> simp [killAllFinalTrace, List.count_cons]

theorem killAllFinalTrace_count_svWait (o : ReapOutcome) :
    (killAllFinalTrace o).count .svWait = 0 := by
  cases o <;> simp [killAllFinalTrace, List.count_cons]

theorem killAllFinalTrace_count_spawn (q : String) (o : ReapOutcome) :
    (killAllFinalTrace o).count (.spawnProc q) = 0 := by
  cases o <;> simp [killAllFinalTrace, List.count_cons]

theorem killAllFinalTrace_count_stopEnter (q : String) (o : ReapOutcome) :
    (killAllFinalTrace o).count (.stopEnter q) = 0 := by
  cases o <;> simp [killAllFinalTrace, List.count_cons]

/-- C5 (confirmed): whenever the runit daemon was started (startup phase
succeeded, skip_runit false), the shutdown sequence of the finally block
runs exactly once, whatever the workload phase did (normal return,
KeyboardInterrupt, AlarmException, OSError) and in both branches: exactly
one shutdown_runit_services request, exactly one wait_for_runit_services,
and exactly one stop of the runit daemon unless it was observed to exit. -/
theorem shutdown_runs_exactly_once (mcmd : List String) (rp mp : Nat)
    (w : ReapOutcome) (sm sr : StopO)
    (hsr : stopEscapes sr = none)
    (hname : mcmd.headD "" ≠ "runit daemon") :
    ((init false mcmd ⟨.ok (), rp, mp, w, sm, sr⟩ st0).2).trace.count .svDown = 1
    ∧ ((init false mcmd ⟨.ok (), rp, mp, w, sm, sr⟩ st0).2).trace.count .svWait = 1
    ∧ ((init false mcmd ⟨.ok (), rp, mp, w, sm, sr⟩ st0).2).trace.count (.stopEnter "runit daemon")
        = (if mcmd.isEmpty && w.isRet then 0 else 1) := by
  cases mcmd with
  | nil =>
    cases w <;>
      simp [init, initBody, wait_for_runit_or_interrupt, reapAt, ReapOutcome.toExcept,
        ReapOutcome.isRet, stop_child_process_eq, hsr, st0, St.emit,
        List.count_cons, List.count_append,
        stopFinalTrace_count_svDown, stopFinalTrace_count_svWait,
        stopFinalTrace_count_stopEnter]
  | cons c cs =>
    have hc : ¬ ("runit daemon" = c) := fun h => hname (by simp [h.symm])
    cases w <;>
    [skip;
     cases hsm : stopEscapes sm <;>
       simp [init, initBody, reapAt, ReapOutcome.toExcept, ReapOutcome.isRet,
         stop_child_process_eq, hsr, hsm, st0, St.emit, List.count_cons, List.count_append,
         stopFinalTrace_count_svDown, stopFinalTrace_count_svWait,
         stopFinalTrace_count_stopEnter, hc];
     cases hsm : stopEscapes sm <;>
       simp [init, initBody, reapAt, ReapOutcome.toExcept, ReapOutcome.isRet,
         stop_child_process_eq, hsr, hsm, st0, St.emit, List.count_cons, List.count_append,
         stopFinalTrace_count_svDown, stopFinalTrace_count_svWait,
         stopFinalTrace_count_stopEnter, hc];
     cases hsm : stopEscapes sm <;>
       simp [init, initBody, reapAt, ReapOutcome.toExcept, ReapOutcome.isRet,
         stop_child_process_eq, hsr, hsm, st0, St.emit, List.count_cons, List.count_append,
         stopFinalTrace_count_svDown, stopFinalTrace_count_svWait,
         stopFinalTrace_count_stopEnter, hc]]
    · simp [init, initBody, reapAt, ReapOutcome.toExcept, ReapOutcome.isRet,
        stop_child_process_eq, hsr, st0, St.emit, List.count_cons, List.count_append,
        stopFinalTrace_count_svDown, stopFinalTrace_count_svWait,
        stopFinalTrace_count_stopEnter, hc]

theorem shutdown_runs_exactly_once_witness :
    (stopEscapes ⟨.ret none, .ret none⟩ = none
      ∧ (["api-server"].headD "" ≠ "runit daemon"))
    ∧ ((init false ["api-server"]
          ⟨.ok (), 100, 101, .raiseOS 5, ⟨.ret (some 0), .ret none⟩, ⟨.ret none, .ret none⟩⟩
          st0).2).trace.count .svDown = 1
    ∧ ((init false ["api-server"]
          ⟨.ok (), 100, 101, .raiseOS 5, ⟨.ret (some 0), .ret none⟩, ⟨.ret none, .ret none⟩⟩
          st0).2).trace.count .svWait = 1
    ∧ ((init false ["api-server"]
          ⟨.ok (), 100, 101, .raiseOS 5, ⟨.ret (some 0), .ret none⟩, ⟨.ret none, .ret none⟩⟩
          st0).2).trace.count (.stopEnter "runit daemon")
        = (if (["api-server"] : List String).isEmpty && (ReapOutcome.raiseOS 5).isRet then 0 else 1) :=
  ⟨⟨rfl, by decide⟩,
    shutdown_runs_exactly_once ["api-server"] 100 101 (.raiseOS 5)
      ⟨.ret (some 0), .ret none⟩ ⟨.ret none, .ret none⟩ rfl (by decide)⟩

/-- C4 counterexample: with the runit daemon supervised and no main
command, a KeyboardInterrupt delivered while blocked in the workload reap
is caught inside wait_for_runit_or_interrupt, exit_status stays None, and
sys.exit(None) makes the whole process exit with status 0 -- not 2 as the
claim states. -/
theorem runit_branch_interrupt_counterexample :
    mainExit [] false true
      ⟨⟨.ok (), 100, 101, .raiseKB, ⟨.ret none, .ret none⟩, ⟨.ret none, .ret none⟩⟩,
        .ret none⟩ = 0
    ∧ (0 : Nat) ≠ 2 :=
  ⟨rfl, by decide⟩

/-- C4 (amended): an interrupt delivered while blocked in the workload reap
always makes the orchestrator proceed to the shutdown sequence (exactly one
shutdown_runit_services request) and never re-enter the workload phase
(exactly one spawn of the workload process); the final status is 2 in the
branch reaping an explicit main command, but 0 -- not 2 -- in the branch
reaping only the supervised runit daemon, where the interrupt is swallowed
by wait_for_runit_or_interrupt and sys.exit(None) is reached. -/
theorem interrupt_cancellation (c : String) (cs : List String) (rp mp : Nat)
    (sm sr : StopO) (ka : ReapOutcome)
    (hsm : stopEscapes sm = none) (hsr : stopEscapes sr = none)
    (hka : killAllEscapes ka = none) (hc : c ≠ "runsvdir") :
    mainExit (c :: cs) false true ⟨⟨.ok (), rp, mp, .raiseKB, sm, sr⟩, ka⟩ = 2
    ∧ mainExit [] false true ⟨⟨.ok (), rp, mp, .raiseKB, sm, sr⟩, ka⟩ = 0
    ∧ (mainTrace (c :: cs) false true ⟨⟨.ok (), rp, mp, .raiseKB, sm, sr⟩, ka⟩).count .svDown = 1
    ∧ (mainTrace [] false true ⟨⟨.ok (), rp, mp, .raiseKB, sm, sr⟩, ka⟩).count .svDown = 1
    ∧ (mainTrace (c :: cs) false true ⟨⟨.ok (), rp, mp, .raiseKB, sm, sr⟩, ka⟩).count (.spawnProc c) = 1
    ∧ (mainTrace [] false true ⟨⟨.ok (), rp, mp, .raiseKB, sm, sr⟩, ka⟩).count (.spawnProc "runsvdir") = 1 := by
  have hc2 : ¬ ("runsvdir" = c) := fun h => hc h.symm
  refine ⟨?_, ?_, ?_, ?_, ?_, ?_⟩ <;>
    simp [mainExit, mainTrace, mainRun, init, initBody, wait_for_runit_or_interrupt,
      reapAt, ReapOutcome.toExcept, stop_child_process_eq, hsm, hsr,
      kill_all_processes_eq, hka, processExitCode, st0, St.emit,
      List.count_cons, List.count_append,
      stopFinalTrace_count_svDown, stopFinalTrace_count_spawn,
      killAllFinalTrace_count_svDown, killAllFinalTrace_count_spawn, hc2]

theorem interrupt_cancellation_witness :
    (stopEscapes ⟨.ret none, .ret none⟩ = none
      ∧ killAllEscapes (.ret none) = none
      ∧ "job" ≠ "runsvdir")
    ∧ mainExit ["job"] false true
        ⟨⟨.ok (), 100, 101, .raiseKB, ⟨.ret none, .ret none⟩, ⟨.ret none, .ret none⟩⟩, .ret none⟩ = 2
    ∧ (mainTrace ["job"] false true
        ⟨⟨.ok (), 100, 101, .raiseKB, ⟨.ret none, .ret none⟩, ⟨.ret none, .ret none⟩⟩, .ret none⟩).count .svDown = 1 :=
  ⟨⟨rfl, rfl, by decide⟩,
    (interrupt_cancellation "job" [] 100 101 ⟨.ret none, .ret none⟩ ⟨.ret none, .ret none⟩
      (.ret none) rfl rfl rfl (by decide)).1,
    (interrupt_cancellation "job" [] 100 101 ⟨.ret none, .ret none⟩ ⟨.ret none, .ret none⟩
      (.ret none) rfl rfl rfl (by decide)).2.2.1⟩

/-- C3 counterexample: a main command killed by SIGKILL reports raw status
9; the code takes WEXITSTATUS unconditionally, so the init process exits
with status 0, not 1 as the claim states. -/
theorem signal_death_exit_counterexample :
    mainExit ["cmd"] false true
      ⟨⟨.ok (), 100, 101, .ret (some 9), ⟨.ret none, .ret none⟩, ⟨.ret none, .ret none⟩⟩,
        .ret none⟩ = 0
    ∧ (0 : Nat) ≠ 1 :=
  ⟨rfl, by decide⟩

/-- C3 (amended): when a main command was supplied and its reap returns a
raw status, the init process exits with WEXITSTATUS of that status
unconditionally: a normal exit with code N below 256 yields N, but a
command killed by a signal (raw status equal to the signal number, below
128) yields 0 -- not 1.  Status 1 is produced only when the reap returns no
status at all. -/
theorem exit_code_mapping (c : String) (cs : List String) (rp mp : Nat)
    (sm sr : StopO) (ka : ReapOutcome) (s N : Nat)
    (hsr : stopEscapes sr = none) (hka : killAllEscapes ka = none) (hN : N < 256) :
    mainExit (c :: cs) false true ⟨⟨.ok (), rp, mp, .ret (some s), sm, sr⟩, ka⟩ = WEXITSTATUS s
    ∧ mainExit (c :: cs) false true ⟨⟨.ok (), rp, mp, .ret (some (N * 256)), sm, sr⟩, ka⟩ = N
    ∧ mainExit (c :: cs) false true ⟨⟨.ok (), rp, mp, .ret none, sm, sr⟩, ka⟩ = 1
    ∧ ∀ sig, 0 < sig → sig < 128 →
        mainExit (c :: cs) false true ⟨⟨.ok (), rp, mp, .ret (some sig), sm, sr⟩, ka⟩ = 0 := by
  have hgen : ∀ v : Nat,
      mainExit (c :: cs) false true ⟨⟨.ok (), rp, mp, .ret (some v), sm, sr⟩, ka⟩
        = WEXITSTATUS v := by
    intro v
    simp [mainExit, mainRun, init, initBody, reapAt, ReapOutcome.toExcept,
      stop_child_process_eq, hsr, kill_all_processes_eq, hka, processExitCode,
      WEXITSTATUS, Nat.mod_mod_of_dvd]
  refine ⟨hgen s, ?_, ?_, ?_⟩
  · rw [hgen (N * 256)]
    unfold WEXITSTATUS
    omega
  · simp [mainExit, mainRun, init, initBody, reapAt, ReapOutcome.toExcept,
      stop_child_process_eq, hsr, kill_all_processes_eq, hka, processExitCode]
  · intro sig h1 h2
    rw [hgen sig]
    unfold WEXITSTATUS
    omega

theorem exit_code_mapping_witness :
    (stopEscapes ⟨.ret none, .ret none⟩ = none
      ∧ killAllEscapes (.ret none) = none
      ∧ (7 : Nat) < 256)
    ∧ mainExit ["worker"] false true
        ⟨⟨.ok (), 100, 101, .ret (some (7 * 256)), ⟨.ret none, .ret none⟩, ⟨.ret none, .ret none⟩⟩,
          .ret none⟩ = 7
    ∧ mainExit ["worker"] false true
        ⟨⟨.ok (), 100, 101, .ret none, ⟨.ret none, .ret none⟩, ⟨.ret none, .ret none⟩⟩,
          .ret none⟩ = 1
    ∧ mainExit ["worker"] false true
        ⟨⟨.ok (), 100, 101, .ret (some 9), ⟨.ret none, .ret none⟩, ⟨.ret none, .ret none⟩⟩,
          .ret none⟩ = 0 :=
  ⟨⟨rfl, rfl, by decide⟩,
    (exit_code_mapping "worker" [] 100 101 ⟨.ret none, .ret none⟩ ⟨.ret none, .ret none⟩
      (.ret none) 0 7 rfl rfl (by decide)).2.1,
    (exit_code_mapping "worker" [] 100 101 ⟨.ret none, .ret none⟩ ⟨.ret none, .ret none⟩
      (.ret none) 0 7 rfl rfl (by decide)).2.2.1,
    (exit_code_mapping "worker" [] 100 101 ⟨.ret none, .ret none⟩ ⟨.ret none, .ret none⟩
      (.ret none) 0 7 rfl rfl (by decide)).2.2.2 9 (by decide) (by decide)⟩

/-- C9 (code_bug): line 248 reads os.join, an attribute the os module does
not have, so run_startup_files raises AttributeError on the very first
directory entry -- before checking that it is executable, let alone running
it.  An empty startup directory is the only listing that gets through.  The
abort logic of run_command_killable itself (non-zero status raises
SystemExit(1)) and the no-workload consequence of a startup failure (no
main-command spawn, process exit 1) behave as the claim describes. -/
theorem startup_files_attribute_error :
    run_startup_files [⟨"00_regen_ssh_host_keys.sh", true, some 0⟩] st0
      = (.error .attrError, st0)
    ∧ run_startup_files [] st0 = (.ok (), st0)
    ∧ run_command_killable "rc.local" 42 (some 256) st0
        = (.error (.sysExit (some 1)), ⟨0, [.errLog, .waitFor 42, .spawnProc "rc.local"]⟩)
    ∧ mainExit ["cmd"] false true
        ⟨⟨.error (.sysExit (some 1)), 100, 101, .ret none,
          ⟨.ret none, .ret none⟩, ⟨.ret none, .ret none⟩⟩, .ret none⟩ = 1
    ∧ (mainTrace ["cmd"] false true
        ⟨⟨.error (.sysExit (some 1)), 100, 101, .ret none,
          ⟨.ret none, .ret none⟩, ⟨.ret none, .ret none⟩⟩, .ret none⟩).count (.spawnProc "cmd") = 0 :=
  ⟨rfl, rfl, rfl, rfl, by rfl⟩

end MyInit
